import Mathlib

/-!
Shallow embedding of `freedom-config` (src/src/lib.rs): the `Secret`
redaction wrapper, the `AtlasEnv` environment capability with the built-in
`Test` and `Prod` variants, the `Config` aggregate with tag-based equality,
and the `ConfigBuilder` with its take-semantics `build` and the
process-environment loaders.  Process environment variables are modelled as
a lookup function `String → Option String`; fallible operations return
`Except Error`.
-/

namespace FreedomConfig

/-- Model of `Secret<T>` (lib.rs line 15): `pub struct Secret<T>(pub T);`.
The single tuple field `0` is public in the source; it is modelled by the
field `val`. -/
structure Secret (T : Type) where
  val : T
deriving DecidableEq

/-- Model of `impl<T> From<T> for Secret<T>` (lib.rs lines 17-21). -/
def Secret.wrap {T : Type} (value : T) : Secret T := ⟨value⟩

/-- Model of `Secret::expose` (lib.rs lines 23-27): returns a reference to
the inner value. -/
def Secret.expose {T : Type} (s : Secret T) : T := s.val

/-- Rust `Debug` for `&str` surrounds the text with double quotes
(escaping is not needed for the fixed text `*****`). -/
def fmtDebugStr (s : String) : String := "\"" ++ s ++ "\""

/-- Model of `impl<T> Debug for Secret<T>` (lib.rs lines 35-39):
`f.debug_tuple("Secret").field(&"*****").finish()` renders the tuple name
followed by the debug form of the fixed text `*****`, independent of the
wrapped value. -/
def Secret.debugFmt {T : Type} (_ : Secret T) : String :=
  "Secret" ++ "(" ++ fmtDebugStr "*****" ++ ")"

/-- Model of `impl<T> Display for Secret<T>` (lib.rs lines 29-33): the
display path delegates to the debug path. -/
def Secret.displayFmt {T : Type} (s : Secret T) : String := s.debugFmt

/-- Structural equality of `Secret` values, as produced by
`derive(PartialEq)` on line 14: delegates to the inner value. -/
instance instBEqSecret {T : Type} [BEq T] : BEq (Secret T) := ⟨fun a b => a.val == b.val⟩

/-- Model of a `dyn AtlasEnv` trait object (lib.rs lines 42-56): the record
of what the capability observably provides — the canonical tag returned by
`AsRef<str>`, the FPS host, and the string from which the entrypoint URL is
parsed. -/
structure AtlasEnvImpl where
  tag : String
  fps_host : String
  entrypoint_url : String
deriving DecidableEq

/-- Model of the `Test` variant (lib.rs lines 60-83): tag `test`, host
`fps.test.atlasground.com`, entrypoint `https://test-api.atlasground.com/api`. -/
def Test : AtlasEnvImpl :=
  ⟨"test", "fps.test.atlasground.com", "https://test-api.atlasground.com/api"⟩

/-- Model of the `Prod` variant (lib.rs lines 87-110): tag `prod`, host
`fps.atlasground.com`, entrypoint `https://api.atlasground.com/api`. -/
def Prod : AtlasEnvImpl :=
  ⟨"prod", "fps.atlasground.com", "https://api.atlasground.com/api"⟩

/-- Model of `u8::to_ascii_lowercase` on one character: characters in the
ASCII range `A`-`Z` are shifted to lowercase, all others are unchanged. -/
def asciiLowerChar (c : Char) : Char :=
  if 65 ≤ c.toNat ∧ c.toNat ≤ 90 then Char.ofNat (c.toNat + 32) else c

/-- Model of `str::to_ascii_lowercase` (used on lib.rs lines 73 and 100):
lowercases every ASCII uppercase character, leaving the rest unchanged. -/
def toAsciiLowercase (s : String) : String := ⟨s.data.map asciiLowerChar⟩

/-- Model of `Test::from_str` (lib.rs lines 69-74):
`val.to_ascii_lowercase().eq("test").then_some(Self)`. -/
def Test.from_str (val : String) : Option AtlasEnvImpl :=
  if toAsciiLowercase val = "test" then some Test else none

/-- Model of `Prod::from_str` (lib.rs lines 96-101):
`val.to_ascii_lowercase().eq("prod").then_some(Self)`. -/
def Prod.from_str (val : String) : Option AtlasEnvImpl :=
  if toAsciiLowercase val = "prod" then some Prod else none

/-- Model of the `Config` struct (lib.rs lines 116-120): an environment
handle, a key string, and a secret-wrapped string. -/
structure Config where
  environment : AtlasEnvImpl
  key : String
  secret : Secret String
deriving DecidableEq

/-- Model of `Config::environment_str` (lib.rs lines 313-315): the string
representation of the environment, i.e. the tag from `AsRef<str>`. -/
def Config.environment_str (c : Config) : String := c.environment.tag

/-- Model of `impl PartialEq for Config` (lib.rs lines 122-128): compares
the environment strings, the keys, and the secrets. -/
def Config.beq (c1 c2 : Config) : Bool :=
  c1.environment_str == c2.environment_str
    && c1.key == c2.key
    && c1.secret == c2.secret

instance instBEqConfig : BEq Config := ⟨Config.beq⟩

/-- Model of the `Error` enum (lib.rs lines 133-142). -/
inductive Error where
  | ParseEnvironment
  | MissingSecret
  | MissingKey
  | MissingEnvironment
deriving DecidableEq

/-- Model of the `ConfigBuilder` struct (lib.rs lines 154-158): three
optional fields, all starting absent. -/
structure ConfigBuilder where
  environment : Option AtlasEnvImpl
  key : Option String
  secret : Option (Secret String)
deriving DecidableEq

/-- Model of `ConfigBuilder::new` / `Default` (lib.rs lines 162-164). -/
def ConfigBuilder.new : ConfigBuilder := ⟨none, none, none⟩

/-- Model of `ConfigBuilder::environment` (lib.rs lines 197-200): setter,
always overwrites. -/
def ConfigBuilder.environment_set (b : ConfigBuilder) (environment : AtlasEnvImpl) :
    ConfigBuilder :=
  ⟨some environment, b.key, b.secret⟩

/-- Model of `ConfigBuilder::secret` (lib.rs lines 203-206): wraps the
value in `Secret` and overwrites the field. -/
def ConfigBuilder.secret_set (b : ConfigBuilder) (secret : String) : ConfigBuilder :=
  ⟨b.environment, b.key, some ⟨secret⟩⟩

/-- Model of `ConfigBuilder::key` (lib.rs lines 209-212): setter, always
overwrites. -/
def ConfigBuilder.key_set (b : ConfigBuilder) (key : String) : ConfigBuilder :=
  ⟨b.environment, some key, b.secret⟩

/-- Model of `ConfigBuilder::build` (lib.rs lines 215-231).  Each `take()`
removes the field from the builder before it is examined, so the result is
returned together with the builder state the call leaves behind. -/
def ConfigBuilder.build (b : ConfigBuilder) : Except Error Config × ConfigBuilder :=
  match b.environment with
  | none => (Except.error Error.MissingEnvironment, ⟨none, b.key, b.secret⟩)
  | some environment =>
    match b.key with
    | none => (Except.error Error.MissingKey, ⟨none, none, b.secret⟩)
    | some key =>
      match b.secret with
      | none => (Except.error Error.MissingSecret, ⟨none, none, none⟩)
      | some secret => (Except.ok ⟨environment, key, secret⟩, ⟨none, none, none⟩)

/-- The process environment, modelled as a partial map from variable names
to values; `std::env::var` returns an error exactly when the lookup yields
`none` (non-unicode values are not modelled). -/
def ProcessEnv : Type := String → Option String

/-- Model of `Config::ATLAS_ENV_VAR` (lib.rs line 236). -/
def ATLAS_ENV_VAR : String := "ATLAS_ENV"

/-- Model of `Config::ATLAS_KEY_VAR` (lib.rs line 239). -/
def ATLAS_KEY_VAR : String := "ATLAS_KEY"

/-- Model of `Config::ATLAS_SECRET_VAR` (lib.rs line 242). -/
def ATLAS_SECRET_VAR : String := "ATLAS_SECRET"

/-- Model of `ConfigBuilder::environment_from_env` (lib.rs lines 167-178):
reads `ATLAS_ENV`, mapping a read failure to `ParseEnvironment`; tries
`Test::from_str` then `Prod::from_str`, storing the first match, and
returns `ParseEnvironment` if neither matches. -/
def ConfigBuilder.environment_from_env (b : ConfigBuilder) (env : ProcessEnv) :
    Except Error ConfigBuilder :=
  match env ATLAS_ENV_VAR with
  | none => Except.error Error.ParseEnvironment
  | some var =>
    match Test.from_str var with
    | some e => Except.ok (b.environment_set e)
    | none =>
      match Prod.from_str var with
      | some e => Except.ok (b.environment_set e)
      | none => Except.error Error.ParseEnvironment

/-- Model of `ConfigBuilder::secret_from_env` (lib.rs lines 181-186):
reads `ATLAS_SECRET`, mapping a read failure to `ParseEnvironment`, and
stores the value wrapped in `Secret` with no further validation. -/
def ConfigBuilder.secret_from_env (b : ConfigBuilder) (env : ProcessEnv) :
    Except Error ConfigBuilder :=
  match env ATLAS_SECRET_VAR with
  | none => Except.error Error.ParseEnvironment
  | some var => Except.ok (b.secret_set var)

/-- Model of `ConfigBuilder::key_from_env` (lib.rs lines 189-194): reads
`ATLAS_KEY`, mapping a read failure to `ParseEnvironment`, and stores the
value verbatim with no further validation. -/
def ConfigBuilder.key_from_env (b : ConfigBuilder) (env : ProcessEnv) :
    Except Error ConfigBuilder :=
  match env ATLAS_KEY_VAR with
  | none => Except.error Error.ParseEnvironment
  | some var => Except.ok (b.key_set var)

/-- Model of `Config::builder` (lib.rs lines 258-260). -/
def Config.builder : ConfigBuilder := ConfigBuilder.new

/-- Model of `Config::from_env` (lib.rs lines 263-269): runs the three
loaders in the order environment, key, secret — `?` short-circuits on the
first failure — then builds. -/
def Config.from_env (env : ProcessEnv) : Except Error Config := do
  let b1 ← Config.builder.environment_from_env env
  let b2 ← b1.key_from_env env
  let b3 ← b2.secret_from_env env
  b3.build.fst

/-- Model of `Config::new` (lib.rs lines 279-291): constructs the `Config`
directly from an environment, a key, and a secret (wrapped on the way in). -/
def Config.new (environment : AtlasEnvImpl) (key : String) (secret : String) : Config :=
  ⟨environment, key, ⟨secret⟩⟩

/-- Model of `Config::expose_secret` (lib.rs lines 322-324). -/
def Config.expose_secret (c : Config) : String := c.secret.expose

/-- A parsed URL: scheme, host, and path. -/
structure Url where
  scheme : String
  host : String
  path : String
deriving DecidableEq

/-- Finds the first occurrence of `pat` in a character list and returns the
characters before it together with the characters after it. -/
def findSeq (pat : List Char) : List Char → Option (List Char × List Char)
  | [] => none
  | c :: rest =>
    if pat.isPrefixOf (c :: rest) then some ([], (c :: rest).drop pat.length)
    else
      match findSeq pat rest with
      | some p => some (c :: p.fst, p.snd)
      | none => none

/-- Modelled from the spec: the external URL parser (`Url::parse` of the
`url` crate, not part of this repository) applied to an absolute URL string.
Per the spec an entrypoint is a "fixed, statically-valid base URL" with the
shape scheme, host and a path; parsing succeeds when the input splits as
`scheme "://" host path` with nonempty scheme and host. -/
def urlParse (s : String) : Option Url :=
  match findSeq ("://".data) s.data with
  | none => none
  | some p =>
    let host := p.snd.takeWhile (fun c => c ≠ '/')
    let path := p.snd.dropWhile (fun c => c ≠ '/')
    if p.fst = [] ∨ host = [] then none
    else some ⟨⟨p.fst⟩, ⟨host⟩, ⟨path⟩⟩

/-- Model of `Test::freedom_entrypoint` (lib.rs lines 80-82):
`Url::parse("https://test-api.atlasground.com/api").unwrap()` — the
`unwrap` panic branch is taken exactly when the parse returns `none`. -/
def Test.freedom_entrypoint : Option Url := urlParse Test.entrypoint_url

/-- Model of `Prod::freedom_entrypoint` (lib.rs lines 107-109):
`Url::parse("https://api.atlasground.com/api").unwrap()` — the `unwrap`
panic branch is taken exactly when the parse returns `none`. -/
def Prod.freedom_entrypoint : Option Url := urlParse Prod.entrypoint_url

/-- The environment map for the C8 scenario: `ATLAS_ENV=prod`,
`ATLAS_KEY=k1`, `ATLAS_SECRET=s1`, nothing else set. -/
def prodEnvMap : ProcessEnv := fun k =>
  if k = "ATLAS_ENV" then some "prod"
  else if k = "ATLAS_KEY" then some "k1"
  else if k = "ATLAS_SECRET" then some "s1"
  else none

/-- C1: for every type `T` and every value `v`, both the Debug and the
Display formatting of `Secret(v)` render exactly the fixed redacted text
`Secret("*****")`, a constant independent of `T` and of `v`, so the output
carries no dependence on the wrapped value's own representation. -/
theorem secret_format_redacted {T : Type} (v : T) :
    (Secret.wrap v).debugFmt = "Secret(\"*****\")"
      ∧ (Secret.wrap v).displayFmt = "Secret(\"*****\")" :=
  ⟨rfl, rfl⟩

/-- C2: `build` with all three fields present returns the configuration;
otherwise it returns the missing-field error of the first absent field in
the order environment, key, secret — never an aggregate. -/
theorem build_field_checks (b : ConfigBuilder) :
    (b.environment = none → b.build.fst = Except.error Error.MissingEnvironment)
  ∧ (∀ e, b.environment = some e → b.key = none →
      b.build.fst = Except.error Error.MissingKey)
  ∧ (∀ e k, b.environment = some e → b.key = some k → b.secret = none →
      b.build.fst = Except.error Error.MissingSecret)
  ∧ (∀ e k s, b.environment = some e → b.key = some k → b.secret = some s →
      b.build.fst = Except.ok ⟨e, k, s⟩) := by
  obtain ⟨env, key, secret⟩ := b
  refine ⟨?_, ?_, ?_, ?_⟩ <;> intros <;> simp_all [ConfigBuilder.build]

/-- Witness for C2: a fully populated builder builds successfully. -/
theorem build_field_checks_witness :
    (ConfigBuilder.mk (some Test) (some "k") (some ⟨"s"⟩)).build.fst
      = Except.ok ⟨Test, "k", ⟨"s"⟩⟩ :=
  (build_field_checks _).2.2.2 Test "k" ⟨"s"⟩ rfl rfl rfl

/-- C3: `Config` equality holds iff the environment tag strings, the keys,
and the wrapped secrets are equal; it does not inspect the environment
beyond its tag, so two configurations whose environments share a tag but
differ in host or entrypoint compare equal, while two configurations
differing only in the secret are unequal. -/
theorem config_eq_tag_key_secret :
    (∀ c1 c2 : Config, (c1 == c2) = true ↔
      c1.environment.tag = c2.environment.tag ∧ c1.key = c2.key
        ∧ c1.secret.val = c2.secret.val)
  ∧ (∀ e1 e2 k s, e1.tag = e2.tag →
      (Config.mk e1 k s == Config.mk e2 k s) = true)
  ∧ (∀ e k s1 s2, s1 ≠ s2 →
      (Config.mk e k ⟨s1⟩ == Config.mk e k ⟨s2⟩) = false) := by
  refine ⟨?_, ?_, ?_⟩ <;> intros <;>
    simp_all [instBEqConfig, Config.beq, Config.environment_str, instBEqSecret,
      and_assoc]

/-- Witness for C3: same tag with different hosts and entrypoints compares
equal; differing only in secret compares unequal. -/
theorem config_eq_tag_key_secret_witness :
    (Config.mk ⟨"same", "hostA", "urlA"⟩ "k" ⟨"s"⟩
        == Config.mk ⟨"same", "hostB", "urlB"⟩ "k" ⟨"s"⟩) = true
  ∧ (Config.mk Test "k" ⟨"s1"⟩ == Config.mk Test "k" ⟨"s2"⟩) = false :=
  ⟨config_eq_tag_key_secret.2.1 _ _ "k" ⟨"s"⟩ rfl,
   config_eq_tag_key_secret.2.2 Test "k" "s1" "s2" (by decide)⟩

/-- C4: `Test::from_str` matches iff the ASCII-lowercased input equals
`test`, `Prod::from_str` iff it equals `prod`; anything else matches
neither — case-insensitive exact equality, not fuzzy or prefix matching. -/
theorem from_str_exact (s : String) :
    (Test.from_str s = some Test ↔ toAsciiLowercase s = "test")
  ∧ (Prod.from_str s = some Prod ↔ toAsciiLowercase s = "prod")
  ∧ (toAsciiLowercase s ≠ "test" → Test.from_str s = none)
  ∧ (toAsciiLowercase s ≠ "prod" → Prod.from_str s = none) := by
  refine ⟨?_, ?_, ?_, ?_⟩ <;> simp_all [Test.from_str, Prod.from_str]

/-- Witness for C4: `TeSt` matches the Test variant and not Prod; a prefix
superstring such as `tests` matches neither. -/
theorem from_str_exact_witness :
    Test.from_str "TeSt" = some Test
  ∧ Prod.from_str "TeSt" = none
  ∧ Test.from_str "tests" = none :=
  ⟨(from_str_exact "TeSt").1.mpr (by decide),
   (from_str_exact "TeSt").2.2.2 (by decide),
   (from_str_exact "tests").2.2.1 (by decide)⟩

/-- C5: the fixed entrypoint URL strings of both built-in variants parse
successfully — the `unwrap` failure branch in `freedom_entrypoint` is
unreachable — and each parsed URL has the path `/api`. -/
theorem entrypoints_parse :
    Test.freedom_entrypoint = some ⟨"https", "test-api.atlasground.com", "/api"⟩
  ∧ Prod.freedom_entrypoint = some ⟨"https", "api.atlasground.com", "/api"⟩ := by
  constructor <;> rfl

/-- C6: `environment_from_env` fails with `ParseEnvironment` exactly when
`ATLAS_ENV` is unset or matches no built-in variant (and `from_env`
propagates that same error when the variable is unset, not a missing-field
error); on a match the parsers are tried in the order Test then Prod and
the first match is stored as the builder's environment. -/
theorem environment_from_env_spec (env : ProcessEnv) (b : ConfigBuilder) :
    (env ATLAS_ENV_VAR = none →
      b.environment_from_env env = Except.error Error.ParseEnvironment
        ∧ Config.from_env env = Except.error Error.ParseEnvironment)
  ∧ (∀ v, env ATLAS_ENV_VAR = some v → Test.from_str v = none →
      Prod.from_str v = none →
      b.environment_from_env env = Except.error Error.ParseEnvironment)
  ∧ (∀ v e, env ATLAS_ENV_VAR = some v → Test.from_str v = some e →
      b.environment_from_env env = Except.ok (b.environment_set e))
  ∧ (∀ v e, env ATLAS_ENV_VAR = some v → Test.from_str v = none →
      Prod.from_str v = some e →
      b.environment_from_env env = Except.ok (b.environment_set e)) := by
  refine ⟨?_, ?_, ?_, ?_⟩ <;> intros <;>
    simp_all [ConfigBuilder.environment_from_env, Config.from_env,
      Config.builder, bind, Except.bind]

/-- Witness for C6: with no variables set, loading the environment fails
with the parse error, and so does `from_env`. -/
theorem environment_from_env_spec_witness :
    ConfigBuilder.new.environment_from_env (fun _ => none)
        = Except.error Error.ParseEnvironment
      ∧ Config.from_env (fun _ => none) = Except.error Error.ParseEnvironment :=
  (environment_from_env_spec (fun _ => none) ConfigBuilder.new).1 rfl

/-- C7: `key_from_env` and `secret_from_env` fail iff their variable
(`ATLAS_KEY`, `ATLAS_SECRET`) is unset; when set they succeed with no
further validation, storing the key verbatim and the secret wrapped
immediately in `Secret`. -/
theorem key_secret_from_env_spec (env : ProcessEnv) (b : ConfigBuilder) :
    (env ATLAS_KEY_VAR = none →
      b.key_from_env env = Except.error Error.ParseEnvironment)
  ∧ (∀ v, env ATLAS_KEY_VAR = some v →
      b.key_from_env env = Except.ok (b.key_set v))
  ∧ (env ATLAS_SECRET_VAR = none →
      b.secret_from_env env = Except.error Error.ParseEnvironment)
  ∧ (∀ v, env ATLAS_SECRET_VAR = some v →
      b.secret_from_env env = Except.ok (b.secret_set v))
  ∧ (∀ v, (b.key_set v).key = some v)
  ∧ (∀ v, (b.secret_set v).secret = some (Secret.wrap v)) := by
  refine ⟨?_, ?_, ?_, ?_, ?_, ?_⟩ <;> intros <;>
    simp_all [ConfigBuilder.key_from_env, ConfigBuilder.secret_from_env,
      ConfigBuilder.key_set, ConfigBuilder.secret_set, Secret.wrap]

/-- Witness for C7: with `ATLAS_KEY` set to `k1`, the key loader stores it
verbatim; with `ATLAS_SECRET` unset, the secret loader fails. -/
theorem key_secret_from_env_spec_witness :
    ConfigBuilder.new.key_from_env (fun k => if k = "ATLAS_KEY" then some "k1" else none)
        = Except.ok (ConfigBuilder.new.key_set "k1")
      ∧ ConfigBuilder.new.secret_from_env
          (fun k => if k = "ATLAS_KEY" then some "k1" else none)
        = Except.error Error.ParseEnvironment :=
  ⟨(key_secret_from_env_spec (fun k => if k = "ATLAS_KEY" then some "k1" else none)
      ConfigBuilder.new).2.1 "k1" rfl,
   (key_secret_from_env_spec (fun k => if k = "ATLAS_KEY" then some "k1" else none)
      ConfigBuilder.new).2.2.1 rfl⟩

/-- C8: with `ATLAS_ENV=prod`, `ATLAS_KEY=k1` and `ATLAS_SECRET=s1` set,
`from_env` (which runs the environment, key and secret loaders in order and
then builds) succeeds, and the result equals — per `Config` equality — the
configuration built directly as `Config::new(Prod, "k1", "s1")`. -/
theorem from_env_matches_new :
    ∃ c, Config.from_env prodEnvMap = Except.ok c
      ∧ (c == Config.new Prod "k1" "s1") = true :=
  ⟨Config.new Prod "k1" "s1", by rfl, by decide⟩

/-- C9: `build` takes (clears) every field it examines: a successful build
leaves all three fields absent, so building again yields
`MissingEnvironment`; a build failing with `MissingKey` has already cleared
the environment, and one failing with `MissingSecret` has cleared both the
environment and the key. -/
theorem build_take_clears (b : ConfigBuilder) :
    (∀ c, b.build.fst = Except.ok c →
      b.build.snd = ConfigBuilder.new
        ∧ b.build.snd.build.fst = Except.error Error.MissingEnvironment)
  ∧ (b.build.fst = Except.error Error.MissingKey →
      b.build.snd.environment = none)
  ∧ (b.build.fst = Except.error Error.MissingSecret →
      b.build.snd.environment = none ∧ b.build.snd.key = none) := by
  obtain ⟨env, key, secret⟩ := b
  refine ⟨?_, ?_, ?_⟩ <;>
    cases env <;> cases key <;> cases secret <;> intros <;>
      simp_all [ConfigBuilder.build, ConfigBuilder.new]

/-- Witness for C9: after a successful build the builder is empty and a
second build fails with `MissingEnvironment`. -/
theorem build_take_clears_witness :
    (ConfigBuilder.mk (some Prod) (some "k") (some ⟨"s"⟩)).build.snd
        = ConfigBuilder.new
      ∧ (ConfigBuilder.mk (some Prod) (some "k") (some ⟨"s"⟩)).build.snd.build.fst
        = Except.error Error.MissingEnvironment :=
  (build_take_clears _).1 ⟨Prod, "k", ⟨"s"⟩⟩ rfl

/-- C10 counterexample: the tuple field of `Secret` is declared `pub` in
the source (lib.rs line 15: `pub struct Secret<T>(pub T);`), so direct
field access — an operation other than the `expose` accessor — also yields
the wrapped value, refuting the claim that `expose` is the only readable
path to it. -/
theorem secret_field_read_counterexample :
    Secret.val (⟨"hunter2"⟩ : Secret String) = "hunter2" := rfl

/-- C10 (amended): `expose` never fails and always returns the current
inner value, and the formatting paths never yield it; however `expose` is
not the only way to read the inner value, because the wrapper's tuple field
is itself public and projects to the same value. -/
theorem expose_returns_inner {T : Type} (v : T) :
    (Secret.wrap v).expose = v ∧ (Secret.wrap v).val = v :=
  ⟨rfl, rfl⟩

end FreedomConfig
